import Mathlib

/-!
Verification development for the weather-poc event-sourced domain core.

The Rust source is shallowly embedded: each aggregate's pure `apply` and the
pure part of each `handle` become Lean functions over explicit state values.
Machine floats (`f32` measurement values) are carried as exact rationals; the
claims settled here never depend on float rounding.  `HashMap`s are carried as
key-unique association lists (lookup / insert / value-iteration semantics
match), `HashSet`s as `Finset`s.  Service objects become records of pure
fallible functions (`Except`), mirroring the `Result`-returning capability
traits; side-effect-only calls (channel sends, subscriber registration) do not
influence the returned events and are noted where dropped.
-/

/-- Embeds `QualityControl` (src/model/mod.rs): closed enum of NOAA
measurement quality-control codes. -/
inductive QualityControl
  | V | G | S | C | Z | Q | T | B | X
deriving DecidableEq, Repr

/-- Embeds `QualityControl::level` (src/model/mod.rs): documented reliability
level, `V = 9` down to `X = 1`. -/
def QualityControl.level : QualityControl → Nat
  | .V => 9
  | .G => 8
  | .S => 7
  | .C => 6
  | .Z => 5
  | .Q => 4
  | .T => 3
  | .B => 2
  | .X => 1

/-- Embeds `Ord for QualityControl` (src/model/mod.rs): compare by `level`. -/
def QualityControl.cmp (a b : QualityControl) : Ordering :=
  compare a.level b.level

/-- Embeds `PropertyDetail` (src/model/frame.rs); the `f32` value is carried
as an exact rational. -/
structure PropertyDetail where
  value : ℚ
  unit_code : String
  quality_control : QualityControl
deriving DecidableEq, Repr

/-- Embeds `QuantitativeAggregation` (src/model/frame.rs). -/
structure QuantitativeAggregation where
  count : Nat
  value_sum : ℚ
  max_value : ℚ
  min_value : ℚ
  unit_code : String
  quality_control : QualityControl
deriving DecidableEq, Repr

/-- Embeds `QuantitativeAggregation::new` (src/model/frame.rs). -/
def QuantitativeAggregation.new (detail : PropertyDetail) : QuantitativeAggregation :=
  { count := 1
    value_sum := detail.value
    max_value := detail.value
    min_value := detail.value
    unit_code := detail.unit_code
    quality_control := detail.quality_control }

/-- Embeds `QuantitativeAggregation::add_detail` (src/model/frame.rs).  The
source's in-function comment documents: lesser rhs quality control => ignore
value; same => combine avg and min/max; higher rhs quality control => reset
aggregation with rhs.  The match below follows the source text: the arm taken
when `self.quality_control < detail.quality_control` does nothing, and the arm
taken when `self.quality_control > detail.quality_control` resets. -/
def QuantitativeAggregation.add_detail (self : QuantitativeAggregation)
    (detail : PropertyDetail) : QuantitativeAggregation :=
  match self.quality_control.cmp detail.quality_control with
  | .lt => self
  | .gt =>
    { self with
      count := 1
      value_sum := detail.value
      max_value := detail.value
      min_value := detail.value
      quality_control := detail.quality_control }
  | .eq =>
    { self with
      count := self.count + 1
      value_sum := self.value_sum + detail.value
      max_value := max detail.value self.max_value
      min_value := min detail.value self.min_value }

/-- Embeds `LocationZoneCode` (src/model/mod.rs): an opaque string code. -/
abbrev LocationZoneCode := String

/-- Embeds the `UpdateLocationsError` variant used by the saga
(src/model/update/errors.rs). -/
inductive UpdateLocationsError
  | rejectedCommand (msg : String)
deriving DecidableEq, Repr

/-- Embeds `LocationUpdatedStep` (src/model/update/saga.rs): the three
per-zone update steps, one bit each in the source's `BitFlags`. -/
inductive LocationUpdatedStep
  | observation
  | forecast
  | alert
deriving DecidableEq, Repr

/-- Embeds `LocationUpdatedSteps = BitFlags<LocationUpdatedStep>`
(src/model/update/saga.rs) as its three member bits. -/
structure LocationUpdatedSteps where
  observation : Bool
  forecast : Bool
  alert : Bool
deriving DecidableEq, Repr

/-- Embeds `BitFlags::default()`: the empty bitmask. -/
def LocationUpdatedSteps.empty : LocationUpdatedSteps :=
  ⟨false, false, false⟩

/-- Embeds `BitFlags::contains` for a single flag. -/
def LocationUpdatedSteps.contains (s : LocationUpdatedSteps) : LocationUpdatedStep → Bool
  | .observation => s.observation
  | .forecast => s.forecast
  | .alert => s.alert

/-- Embeds `BitFlags::toggle` for a single flag. -/
def LocationUpdatedSteps.toggle (s : LocationUpdatedSteps) : LocationUpdatedStep → LocationUpdatedSteps
  | .observation => { s with observation := !s.observation }
  | .forecast => { s with forecast := !s.forecast }
  | .alert => { s with alert := !s.alert }

/-- Embeds `BitFlags::is_all`: every step bit set. -/
def LocationUpdatedSteps.isAll (s : LocationUpdatedSteps) : Bool :=
  s.observation && s.forecast && s.alert

/-- Embeds `UpdateCompletionStatus` (src/model/update/saga.rs). -/
inductive UpdateCompletionStatus
  | succeeded
  | failed
deriving DecidableEq, Repr

/-- Embeds `LocationUpdateStatus = Either<LocationUpdatedSteps,
UpdateCompletionStatus>` (src/model/update/saga.rs). -/
inductive LocationUpdateStatus
  | left (steps : LocationUpdatedSteps)
  | right (status : UpdateCompletionStatus)
deriving DecidableEq, Repr

/-- Embeds `DEFAULT_LOCATION_UPDATE_STATUS = Left(LocationUpdatedSteps::default())`
(src/model/update/saga.rs). -/
def DEFAULT_LOCATION_UPDATE_STATUS : LocationUpdateStatus :=
  .left LocationUpdatedSteps.empty

/-- Embeds `Either::left()`: the `Left` payload, if any. -/
def LocationUpdateStatus.leftSteps : LocationUpdateStatus → Option LocationUpdatedSteps
  | .left steps => some steps
  | .right _ => none

/-- Embeds `LocationUpdateStatusExt::is_active` (src/model/update/saga.rs):
`is_left`. -/
def LocationUpdateStatus.is_active : LocationUpdateStatus → Bool
  | .left _ => true
  | .right _ => false

/-- The saga's `HashMap<LocationZoneCode, LocationUpdateStatus>` carried as a
key-unique association list. -/
abbrev StatusMap := List (LocationZoneCode × LocationUpdateStatus)

/-- Embeds `HashMap::get` on the status map. -/
def lookupStatus : StatusMap → LocationZoneCode → Option LocationUpdateStatus
  | [], _ => none
  | (k, v) :: rest, z => if k = z then some v else lookupStatus rest z

/-- Embeds `HashMap::insert` on the status map: the key's binding is replaced
(or created); all other bindings are untouched. -/
def insertStatus (m : StatusMap) (z : LocationZoneCode) (s : LocationUpdateStatus) : StatusMap :=
  (z, s) :: m.filter (fun p => !(p.1 = z : Bool))

/-- Embeds `location_statuses.values().filter(|s| s.is_active()).count()`
(src/model/update/saga.rs, `is_only_active_zone`). -/
def countActive (m : StatusMap) : Nat :=
  (m.filter (fun p => p.2.is_active)).length

/-- Embeds `UpdateLocationsCommand` (src/model/update/protocol.rs); the saga
id `Id<UpdateLocations>` is carried as its string rendering. -/
inductive UpdateLocationsCommand
  | updateLocations (aggregateId : String) (zones : List LocationZoneCode)
  | noteLocationObservationUpdated (zone : LocationZoneCode)
  | noteLocationForecastUpdated (zone : LocationZoneCode)
  | noteLocationAlertStatusUpdated (zone : LocationZoneCode)
  | noteLocationUpdateFailure (zone : LocationZoneCode)
deriving DecidableEq, Repr

/-- Embeds `UpdateLocationsEvent` (src/model/update/protocol.rs). -/
inductive UpdateLocationsEvent
  | started (aggregateId : String) (zones : List LocationZoneCode)
  | locationUpdated (zone : LocationZoneCode) (status : LocationUpdateStatus)
  | completed
  | failed
deriving DecidableEq, Repr

/-- Embeds `ActiveLocationsUpdate` (src/model/update/saga.rs). -/
structure ActiveLocationsUpdate where
  aggregate_id : String
  location_statuses : StatusMap
deriving DecidableEq, Repr

/-- Embeds `UpdateLocationsState` (src/model/update/saga.rs): the saga's
Quiescent / Active / Finished sum. -/
inductive UpdateLocationsState
  | quiescent
  | active (s : ActiveLocationsUpdate)
  | finished
deriving DecidableEq, Repr

/-- Embeds `ActiveLocationsUpdate::is_only_active_zone`
(src/model/update/saga.rs): the zone's status exists and is `Left(_)` and it
is the only `Left(_)` status in the map. -/
def isOnlyActiveZone (self : ActiveLocationsUpdate) (zone : LocationZoneCode) : Bool :=
  match lookupStatus self.location_statuses zone with
  | some status =>
    if status.is_active then countActive self.location_statuses == 1 else false
  | none => false

/-- Embeds `ActiveLocationsUpdate::handle_location_update`
(src/model/update/saga.rs).  The source keeps two guarded match arms with
identical bodies (the `is_only_active_zone` arm and the general arm); the
`if` below preserves that structure literally. -/
def handleLocationUpdate (self : ActiveLocationsUpdate) (zone : LocationZoneCode)
    (step : LocationUpdatedStep) : List UpdateLocationsEvent :=
  let previous :=
    ((lookupStatus self.location_statuses zone).getD DEFAULT_LOCATION_UPDATE_STATUS).leftSteps
  match previous with
  | none => []
  | some prev =>
    if prev.contains step then []
    else if isOnlyActiveZone self zone then
      let zone_steps := prev.toggle step
      if zone_steps.isAll then
        [.locationUpdated zone (.left zone_steps), .completed]
      else
        [.locationUpdated zone (.left zone_steps)]
    else
      let zone_steps := prev.toggle step
      if zone_steps.isAll then
        [.locationUpdated zone (.left zone_steps), .completed]
      else
        [.locationUpdated zone (.left zone_steps)]

/-- Embeds `ActiveLocationsUpdate::handle_location_failure`
(src/model/update/saga.rs). -/
def handleLocationFailure (self : ActiveLocationsUpdate)
    (zone : LocationZoneCode) : List UpdateLocationsEvent :=
  let previous := (lookupStatus self.location_statuses zone).getD DEFAULT_LOCATION_UPDATE_STATUS
  match previous with
  | .left _ =>
    if isOnlyActiveZone self zone then
      [.locationUpdated zone (.right .failed), .failed]
    else
      [.locationUpdated zone (.right .failed)]
  | .right _ => []

/-- Embeds `QuiescentLocationsUpdate::handle` (src/model/update/saga.rs).
The `services.add_subscriber` call is a channel side effect that does not
influence the returned events and is dropped here. -/
def quiescentSagaHandle (command : UpdateLocationsCommand) :
    Except UpdateLocationsError (List UpdateLocationsEvent) :=
  match command with
  | .updateLocations aggregateId zones =>
    if zones.isEmpty then
      .error (.rejectedCommand
        "UpdateLocations saga cannot handle command until starts an update")
    else
      .ok [.started aggregateId zones]
  | _ =>
    .error (.rejectedCommand
      "UpdateLocations saga cannot handle command until starts an update")

/-- Embeds `ActiveLocationsUpdate::handle` (src/model/update/saga.rs). -/
def activeSagaHandle (self : ActiveLocationsUpdate) (command : UpdateLocationsCommand) :
    Except UpdateLocationsError (List UpdateLocationsEvent) :=
  match command with
  | .updateLocations _ _ =>
    .error (.rejectedCommand "UpdateLocations saga a already updating locations")
  | .noteLocationObservationUpdated zone =>
    .ok (handleLocationUpdate self zone .observation)
  | .noteLocationForecastUpdated zone =>
    .ok (handleLocationUpdate self zone .forecast)
  | .noteLocationAlertStatusUpdated zone =>
    .ok (handleLocationUpdate self zone .alert)
  | .noteLocationUpdateFailure zone =>
    .ok (handleLocationFailure self zone)

/-- Embeds `FinishedLocationsUpdate::handle` (src/model/update/saga.rs):
every command is rejected. -/
def finishedSagaHandle (_command : UpdateLocationsCommand) :
    Except UpdateLocationsError (List UpdateLocationsEvent) :=
  .error (.rejectedCommand "Finished UpdateLocations saga does not handle commands")

/-- Embeds `UpdateLocationsState::handle` (src/model/update/saga.rs):
dispatch on the state variant. -/
def sagaHandle : UpdateLocationsState → UpdateLocationsCommand →
    Except UpdateLocationsError (List UpdateLocationsEvent)
  | .quiescent, cmd => quiescentSagaHandle cmd
  | .active s, cmd => activeSagaHandle s cmd
  | .finished, cmd => finishedSagaHandle cmd

/-- Embeds `QuiescentLocationsUpdate::apply` (src/model/update/saga.rs):
`Started` builds the status map with every zone at the default status; other
events are ignored (`None`). -/
def quiescentSagaApply (event : UpdateLocationsEvent) : Option UpdateLocationsState :=
  match event with
  | .started aggregateId zones =>
    some (.active
      { aggregate_id := aggregateId
        location_statuses :=
          zones.foldl (fun m z => insertStatus m z DEFAULT_LOCATION_UPDATE_STATUS) [] })
  | _ => none

/-- Embeds `ActiveLocationsUpdate::apply` (src/model/update/saga.rs). -/
def activeSagaApply (self : ActiveLocationsUpdate) (event : UpdateLocationsEvent) :
    Option UpdateLocationsState :=
  match event with
  | .locationUpdated zone status =>
    some (.active
      { self with location_statuses := insertStatus self.location_statuses zone status })
  | .completed => some .finished
  | .failed => some .finished
  | .started _ _ => none

/-- Embeds `FinishedLocationsUpdate::apply` (src/model/update/saga.rs):
every event is ignored (`None`). -/
def finishedSagaApply (_event : UpdateLocationsEvent) : Option UpdateLocationsState :=
  none

/-- Embeds `UpdateLocationsState::apply` (src/model/update/saga.rs). -/
def sagaApplyStep : UpdateLocationsState → UpdateLocationsEvent → Option UpdateLocationsState
  | .quiescent, e => quiescentSagaApply e
  | .active s, e => activeSagaApply s e
  | .finished, e => finishedSagaApply e

/-- Embeds `UpdateLocations::apply` (src/model/update/saga.rs): replace the
state only when the variant recognizes the event. -/
def sagaApply (s : UpdateLocationsState) (e : UpdateLocationsEvent) : UpdateLocationsState :=
  (sagaApplyStep s e).getD s

/-- One runtime cycle for one command, as the aggregate runtime performs it:
`handle`, then `apply` each returned event in order; a rejected command leaves
the state untouched and emits nothing. -/
def sagaExecute (s : UpdateLocationsState) (c : UpdateLocationsCommand) :
    UpdateLocationsState × List UpdateLocationsEvent :=
  match sagaHandle s c with
  | .ok events => (events.foldl sagaApply s, events)
  | .error _ => (s, [])

/-- A saga run: the commands processed in order from a given state,
accumulating every emitted event. -/
def sagaRun : UpdateLocationsState → List UpdateLocationsCommand →
    UpdateLocationsState × List UpdateLocationsEvent
  | s, [] => (s, [])
  | s, c :: cs =>
    let step := sagaExecute s c
    let rest := sagaRun step.1 cs
    (rest.1, step.2 ++ rest.2)

/-- Recognizes a `LocationUpdated(z, Right(_))` event for the given zone. -/
def isRightUpdateFor (z : LocationZoneCode) : UpdateLocationsEvent → Bool
  | .locationUpdated z' (.right _) => z' = z
  | _ => false

/-- Number of `LocationUpdated(z, Right(_))` events for a zone in a run. -/
def rightCount (z : LocationZoneCode) (events : List UpdateLocationsEvent) : Nat :=
  (events.filter (isRightUpdateFor z)).length

/-- Recognizes a terminal saga event (`Completed` or `Failed`). -/
def isTerminal : UpdateLocationsEvent → Bool
  | .completed => true
  | .failed => true
  | _ => false

/-- Number of terminal events in a run. -/
def terminalCount (events : List UpdateLocationsEvent) : Nat :=
  (events.filter isTerminal).length

/-- Embeds `LocationZoneType` (src/model/mod.rs). -/
inductive LocationZoneType
  | public
  | county
  | forecast
deriving DecidableEq, Repr

/-- Embeds `QuantitativeValue` (src/model/mod.rs); `f32` fields carried as
exact rationals. -/
structure QuantitativeValue where
  value : ℚ
  max_value : ℚ
  min_value : ℚ
  unit_code : String
  quality_control : QualityControl
deriving DecidableEq, Repr

/-- Embeds `WeatherFrame` (src/model/frame.rs); the ISO-8601 timestamp is
carried as an opaque integer instant. -/
structure WeatherFrame where
  timestamp : Int
  temperature : Option QuantitativeValue
deriving DecidableEq, Repr

/-- Embeds `ForecastDetail` (src/model/mod.rs). -/
structure ForecastDetail where
  name : String
  forecast : String
deriving DecidableEq, Repr

/-- Embeds `ZoneForecast` (src/model/mod.rs); the UTC instant is carried as
an opaque integer. -/
structure ZoneForecast where
  zone_code : String
  updated : Int
  periods : List ForecastDetail
deriving DecidableEq, Repr

/-- Embeds `AlertStatus` (src/model/mod.rs). -/
inductive AlertStatus
  | actual | exercise | system | test | draft
deriving DecidableEq, Repr

/-- Embeds `AlertMessageType` (src/model/mod.rs). -/
inductive AlertMessageType
  | alert | update | cancel
deriving DecidableEq, Repr

/-- Embeds `AlertCategory` (src/model/mod.rs). -/
inductive AlertCategory
  | met | geo | safety | security | rescue | fire | health | env | transport
  | infra | cbrne | other
deriving DecidableEq, Repr

/-- Embeds `AlertSeverity` (src/model/mod.rs). -/
inductive AlertSeverity
  | extreme | severe | moderate | minor | unknown
deriving DecidableEq, Repr

/-- Embeds `AlertCertainty` (src/model/mod.rs). -/
inductive AlertCertainty
  | observed | likely | possible | unlikely | unknown
deriving DecidableEq, Repr

/-- Embeds `AlertUrgency` (src/model/mod.rs). -/
inductive AlertUrgency
  | immediate | expected | future | past | unknown
deriving DecidableEq, Repr

/-- Embeds `AlertResponse` (src/model/mod.rs). -/
inductive AlertResponse
  | shelter | evacuate | prepare | execute | avoid | monitor | assess
  | allClear | none
deriving DecidableEq, Repr

/-- Embeds `WeatherAlert` (src/model/mod.rs); `DateTime<Utc>` fields are
carried as opaque integer instants. -/
structure WeatherAlert where
  affected_zones : List LocationZoneCode
  status : AlertStatus
  message_type : AlertMessageType
  sent : Int
  effective : Int
  onset : Option Int
  expires : Int
  ends : Option Int
  category : AlertCategory
  severity : AlertSeverity
  certainty : AlertCertainty
  urgency : AlertUrgency
  event : String
  headline : String
  description : String
  instruction : Option String
  response : AlertResponse
deriving DecidableEq, Repr

/-- Embeds `LocationZoneCommand` (src/model/zone/protocol.rs). -/
inductive LocationZoneCommand
  | watchZone (zoneType : LocationZoneType) (code : LocationZoneCode)
  | observe
  | forecast
  | noteAlert (alert : Option WeatherAlert)
deriving DecidableEq, Repr

/-- Embeds `LocationZoneEvent` (src/model/zone/protocol.rs). -/
inductive LocationZoneEvent
  | zoneSet (zoneType : LocationZoneType) (code : LocationZoneCode)
  | observationAdded (frame : WeatherFrame)
  | forecastUpdated (forecast : ZoneForecast)
  | alertActivated (alert : WeatherAlert)
  | alertDeactivated
deriving DecidableEq, Repr

/-- Embeds `LocationZoneError` (src/model/zone/errors.rs); the wrapped
`LocationServiceError` is carried as its message. -/
inductive LocationZoneError
  | rejectedCommand (msg : String)
  | locationService (msg : String)
deriving DecidableEq, Repr

/-- Embeds the `LocationServices` capability (src/model/zone/service.rs):
`zone_observation` and `zone_forecast` as pure fallible functions, errors
already converted into `LocationZoneError` as done by the `?` operator. -/
structure LocationServices where
  zone_observation : LocationZoneCode → Except LocationZoneError WeatherFrame
  zone_forecast : LocationZoneType → LocationZoneCode → Except LocationZoneError ZoneForecast

/-- Embeds `ActiveLocationZone` (src/model/zone/location.rs). -/
structure ActiveLocationZone where
  zone_type : LocationZoneType
  zone_id : LocationZoneCode
  weather : Option WeatherFrame
  forecast : Option ZoneForecast
  active_alert : Bool
deriving DecidableEq, Repr

/-- Embeds `LocationZoneState` (src/model/zone/location.rs). -/
inductive LocationZoneState
  | quiescent
  | active (s : ActiveLocationZone)
deriving DecidableEq, Repr

/-- Embeds `QuiescentLocationZone::handle` (src/model/zone/location.rs). -/
def quiescentZoneHandle (command : LocationZoneCommand) :
    Except LocationZoneError (List LocationZoneEvent) :=
  match command with
  | .watchZone zoneType zoneCode => .ok [.zoneSet zoneType zoneCode]
  | _ =>
    .error (.rejectedCommand "LocationZone cannot handle command until it targets a zone")

/-- Embeds `ActiveLocationZone::handle` (src/model/zone/location.rs). -/
def activeZoneHandle (self : ActiveLocationZone) (command : LocationZoneCommand)
    (services : LocationServices) : Except LocationZoneError (List LocationZoneEvent) :=
  match command with
  | .observe =>
    match services.zone_observation self.zone_id with
    | .ok frame => .ok [.observationAdded frame]
    | .error e => .error e
  | .forecast =>
    match services.zone_forecast self.zone_type self.zone_id with
    | .ok forecast => .ok [.forecastUpdated forecast]
    | .error e => .error e
  | .noteAlert alert =>
    let event : Option LocationZoneEvent :=
      match self.active_alert, alert with
      | false, some a => some (.alertActivated a)
      | true, none => some .alertDeactivated
      | _, _ => none
    .ok event.toList
  | .watchZone _ _ =>
    .error (.rejectedCommand "LocationZone already watching zone, cannot change watch")

/-- Embeds `LocationZoneState::handle` (src/model/zone/location.rs). -/
def zoneHandle (s : LocationZoneState) (command : LocationZoneCommand)
    (services : LocationServices) : Except LocationZoneError (List LocationZoneEvent) :=
  match s with
  | .quiescent => quiescentZoneHandle command
  | .active st => activeZoneHandle st command services

/-- Embeds `QuiescentLocationZone::apply` (src/model/zone/location.rs):
`ZoneSet` activates the zone; every other event is ignored (`None`). -/
def quiescentZoneApply (event : LocationZoneEvent) : Option LocationZoneState :=
  match event with
  | .zoneSet zoneType zoneCode =>
    some (.active
      { zone_type := zoneType
        zone_id := zoneCode
        weather := none
        forecast := none
        active_alert := false })
  | _ => none

/-- Embeds `ActiveLocationZone::apply` (src/model/zone/location.rs). -/
def activeZoneApply (self : ActiveLocationZone) (event : LocationZoneEvent) :
    Option LocationZoneState :=
  match event with
  | .observationAdded frame => some (.active { self with weather := some frame })
  | .forecastUpdated forecast => some (.active { self with forecast := some forecast })
  | .alertActivated _ => some (.active { self with active_alert := true })
  | .alertDeactivated => some (.active { self with active_alert := false })
  | .zoneSet _ _ => none

/-- Embeds `LocationZoneState::apply` (src/model/zone/location.rs). -/
def zoneApplyStep : LocationZoneState → LocationZoneEvent → Option LocationZoneState
  | .quiescent, e => quiescentZoneApply e
  | .active s, e => activeZoneApply s e

/-- Embeds `LocationZone::apply` (src/model/zone/location.rs): replace the
state only when the variant recognizes the event. -/
def zoneApply (s : LocationZoneState) (e : LocationZoneEvent) : LocationZoneState :=
  (zoneApplyStep s e).getD s

/-- Embeds `RegistrarCommand` (src/model/registrar.rs). -/
inductive RegistrarCommand
  | updateWeather
  | monitorForecastZone (zone : LocationZoneCode)
  | clearZoneMonitoring
  | forgetForecastZone (zone : LocationZoneCode)
deriving DecidableEq, Repr

/-- Embeds `RegistrarEvent` (src/model/registrar.rs). -/
inductive RegistrarEvent
  | forecastZoneAdded (zone : LocationZoneCode)
  | forecastZoneForgotten (zone : LocationZoneCode)
  | allForecastZonesForgotten
deriving DecidableEq, Repr

/-- Embeds `RegistrarError` (src/model/registrar.rs); the wrapped aggregate
errors are carried as their messages. -/
inductive RegistrarError
  | locationZone (msg : String)
  | updateForecastZones (msg : String)
  | rejectedCommand (msg : String)
deriving DecidableEq, Repr

/-- Embeds `Registrar` (src/model/registrar.rs): the singleton set of
monitored zone codes; the `HashSet` is carried as a `Finset`. -/
structure Registrar where
  location_codes : Finset LocationZoneCode
deriving DecidableEq

/-- Embeds the `RegistrarApi` capability (src/model/registrar.rs) as pure
fallible functions.  `update_weather` receives the monitored set (the source
passes the collected references; `HashSet` iteration order is arbitrary). -/
structure RegistrarServices where
  initialize_forecast_zone : LocationZoneCode → Except RegistrarError Unit
  update_weather : Finset LocationZoneCode → Except RegistrarError Unit

/-- Embeds `HappyPathServices` (src/model/registrar.rs): both capabilities
succeed and do nothing. -/
def HappyPathServices : RegistrarServices :=
  { initialize_forecast_zone := fun _ => .ok ()
    update_weather := fun _ => .ok () }

/-- Embeds `Registrar::handle` (src/model/registrar.rs).  The guard order
matches the source: `MonitorForecastZone` is accepted only when the code is
not yet monitored, otherwise rejected; the `?` on
`initialize_forecast_zone` propagates a service error before any event. -/
def registrarHandle (self : Registrar) (command : RegistrarCommand)
    (service : RegistrarServices) : Except RegistrarError (List RegistrarEvent) :=
  match command with
  | .updateWeather =>
    (service.update_weather self.location_codes).map (fun _ => [])
  | .monitorForecastZone zone =>
    if zone ∉ self.location_codes then
      (service.initialize_forecast_zone zone).map (fun _ => [.forecastZoneAdded zone])
    else
      .error (.rejectedCommand ("already monitoring location zone code: " ++ zone))
  | .clearZoneMonitoring => .ok [.allForecastZonesForgotten]
  | .forgetForecastZone zone => .ok [.forecastZoneForgotten zone]

/-- Embeds `Registrar::apply` (src/model/registrar.rs). -/
def registrarApply (self : Registrar) (event : RegistrarEvent) : Registrar :=
  match event with
  | .forecastZoneAdded zone => { location_codes := insert zone self.location_codes }
  | .forecastZoneForgotten zone => { location_codes := self.location_codes.erase zone }
  | .allForecastZonesForgotten => { location_codes := ∅ }

/-- Replaying a registrar event sequence on the initial empty aggregate. -/
def registrarReplay (events : List RegistrarEvent) : Registrar :=
  events.foldl registrarApply { location_codes := ∅ }

/-- Modelled from the spec (section 8, universal invariant 5): one step of
the reference fold for `location_codes` - `ForecastZoneAdded(zone)` inserts
the code, `ForecastZoneForgotten(zone)` removes it (a no-op when absent), and
`AllForecastZonesForgotten` resets the set to empty at its position. -/
def specReferenceStep (acc : Finset LocationZoneCode) (e : RegistrarEvent) :
    Finset LocationZoneCode :=
  match e with
  | .forecastZoneAdded zone => insert zone acc
  | .forecastZoneForgotten zone => acc.erase zone
  | .allForecastZonesForgotten => ∅

/-- Modelled from the spec (section 8, universal invariant 5): the reference
fold evaluated in event order starting from the empty set. -/
def specReferenceLocationCodes (events : List RegistrarEvent) : Finset LocationZoneCode :=
  events.foldl specReferenceStep ∅

/-- One runtime cycle of one registrar command: `handle`, then `apply` each
returned event in order; a rejected command leaves the state untouched. -/
def registrarExecute (self : Registrar) (command : RegistrarCommand)
    (service : RegistrarServices) : Registrar × Except RegistrarError (List RegistrarEvent) :=
  match registrarHandle self command service with
  | .ok events => (events.foldl registrarApply self, .ok events)
  | .error e => (self, .error e)

/-- A command envelope targeting the `LocationZone` aggregate
(src/queries/broadcast.rs shape: target id, command, metadata). -/
structure LocationCommandEnvelope where
  target_id : String
  command : LocationZoneCommand
  metadata : List (String × String)
deriving DecidableEq, Repr

/-- A command envelope targeting the `UpdateLocations` saga. -/
structure UpdateCommandEnvelope where
  target_id : String
  command : UpdateLocationsCommand
  metadata : List (String × String)
deriving DecidableEq, Repr

/-- Embeds the command fan-out of `UpdateLocationZoneController::dispatch`
(src/model/update/zone_controller.rs) for one `Started(_, zones)` event, on
the path where every channel send succeeds.  The first component is every
envelope sent into the location command relay (`location_tx`): one `Observe`
per zone, one `Forecast` per zone, and one `NoteAlert(Some(alert))` per
(fetched alert, affected zone) pair whose zone is among the update's zones.
The second component is every envelope the controller sends into the saga
command relay (`update_tx`): per `do_send_command`, a
`NoteLocationUpdateFailure` is sent there only when a location send fails, so
on the success path this component is empty. -/
def dispatchStartedCommands (update_saga_id : String) (zones : List LocationZoneCode)
    (alerts : List WeatherAlert) :
    List LocationCommandEnvelope × List UpdateCommandEnvelope :=
  let metadata : List (String × String) := [("correlation", update_saga_id)]
  let observation_cmds := zones.map
    (fun z => LocationCommandEnvelope.mk z .observe metadata)
  let forecast_cmds := zones.map
    (fun z => LocationCommandEnvelope.mk z .forecast metadata)
  let alert_cmds := alerts.flatMap
    (fun alert =>
      (alert.affected_zones.filter (fun az => zones.contains az)).map
        (fun az => LocationCommandEnvelope.mk az (.noteAlert (some alert)) metadata))
  (observation_cmds ++ forecast_cmds ++ alert_cmds, [])

/-- The zone's stored status is `Right(_)` (already terminal). -/
def statusRight (m : StatusMap) (z : LocationZoneCode) : Bool :=
  match lookupStatus m z with
  | some (.right _) => true
  | _ => false

theorem lookupStatus_insert_self (m : StatusMap) (z : LocationZoneCode)
    (s : LocationUpdateStatus) : lookupStatus (insertStatus m z s) z = some s := by
  simp [insertStatus, lookupStatus]

theorem lookupStatus_filter_ne (m : StatusMap) (z z' : LocationZoneCode) (h : z' ≠ z) :
    lookupStatus (m.filter (fun p => !(p.1 = z : Bool))) z' = lookupStatus m z' := by
  induction m with
  | nil => rfl
  | cons p rest ih =>
    by_cases hp : p.1 = z
    · have hz : ¬(z = z') := fun hc => h hc.symm
      simp [List.filter_cons, hp, lookupStatus, hz, ih]
    · cases p with
      | mk k v => simp only [List.filter_cons] at *; simp_all [lookupStatus]

theorem lookupStatus_insert_ne (m : StatusMap) (z z' : LocationZoneCode)
    (s : LocationUpdateStatus) (h : z' ≠ z) :
    lookupStatus (insertStatus m z s) z' = lookupStatus m z' := by
  have hz : ¬(z = z') := fun hc => h hc.symm
  simp [insertStatus, lookupStatus, hz, lookupStatus_filter_ne m z z' h]

theorem statusRight_insert_left (m : StatusMap) (z : LocationZoneCode)
    (ns : LocationUpdatedSteps) : statusRight (insertStatus m z (.left ns)) z = false := by
  simp [statusRight, lookupStatus_insert_self]

theorem statusRight_insert_right (m : StatusMap) (z : LocationZoneCode)
    (c : UpdateCompletionStatus) : statusRight (insertStatus m z (.right c)) z = true := by
  simp [statusRight, lookupStatus_insert_self]

theorem statusRight_insert_ne (m : StatusMap) (z z' : LocationZoneCode)
    (s : LocationUpdateStatus) (h : z' ≠ z) :
    statusRight (insertStatus m z s) z' = statusRight m z' := by
  simp [statusRight, lookupStatus_insert_ne m z z' s h]

theorem rightCount_append (z : LocationZoneCode) (a b : List UpdateLocationsEvent) :
    rightCount z (a ++ b) = rightCount z a + rightCount z b := by
  simp [rightCount, List.filter_append]

theorem terminalCount_append (a b : List UpdateLocationsEvent) :
    terminalCount (a ++ b) = terminalCount a + terminalCount b := by
  simp [terminalCount, List.filter_append]

theorem rightCount_leftUpdate (z z' : LocationZoneCode) (ns : LocationUpdatedSteps) :
    rightCount z [.locationUpdated z' (.left ns)] = 0 := rfl

theorem rightCount_leftUpdate_completed (z z' : LocationZoneCode) (ns : LocationUpdatedSteps) :
    rightCount z [.locationUpdated z' (.left ns), .completed] = 0 := rfl

theorem rightCount_started (z id : LocationZoneCode) (zones : List LocationZoneCode) :
    rightCount z [.started id zones] = 0 := rfl

theorem rightCount_rightUpdate_self (z : LocationZoneCode) (c : UpdateCompletionStatus) :
    rightCount z [.locationUpdated z (.right c)] = 1 := by
  simp [rightCount, isRightUpdateFor, List.filter]

theorem rightCount_rightUpdate_ne (z z' : LocationZoneCode) (c : UpdateCompletionStatus)
    (h : z' ≠ z) : rightCount z [.locationUpdated z' (.right c)] = 0 := by
  simp [rightCount, isRightUpdateFor, List.filter, h]

theorem rightCount_rightUpdate_failed_self (z : LocationZoneCode) :
    rightCount z [.locationUpdated z (.right .failed), .failed] = 1 := by
  simp [rightCount, isRightUpdateFor, List.filter]

theorem rightCount_rightUpdate_failed_ne (z z' : LocationZoneCode) (h : z' ≠ z) :
    rightCount z [.locationUpdated z' (.right .failed), .failed] = 0 := by
  simp [rightCount, isRightUpdateFor, List.filter, h]

theorem terminalCount_leftUpdate (z : LocationZoneCode) (st : LocationUpdateStatus) :
    terminalCount [.locationUpdated z st] = 0 := rfl

theorem terminalCount_update_completed (z : LocationZoneCode) (st : LocationUpdateStatus) :
    terminalCount [.locationUpdated z st, .completed] = 1 := rfl

theorem terminalCount_update_failed (z : LocationZoneCode) (st : LocationUpdateStatus) :
    terminalCount [.locationUpdated z st, .failed] = 1 := rfl

theorem terminalCount_started (id : String) (zones : List LocationZoneCode) :
    terminalCount [.started id zones] = 0 := rfl

theorem handleLocationUpdate_cases (s : ActiveLocationsUpdate) (z : LocationZoneCode)
    (st : LocationUpdatedStep) :
    handleLocationUpdate s z st = [] ∨
    (statusRight s.location_statuses z = false ∧
      ∃ ns, handleLocationUpdate s z st = [.locationUpdated z (.left ns)] ∨
        handleLocationUpdate s z st = [.locationUpdated z (.left ns), .completed]) := by
  unfold handleLocationUpdate
  cases h : lookupStatus s.location_statuses z with
  | none =>
    right
    refine ⟨by simp [statusRight, h], LocationUpdatedSteps.empty.toggle st, Or.inl ?_⟩
    have hcon : LocationUpdatedSteps.empty.contains st = false := by cases st <;> rfl
    have hall : (LocationUpdatedSteps.empty.toggle st).isAll = false := by cases st <;> rfl
    simp [h, DEFAULT_LOCATION_UPDATE_STATUS, LocationUpdateStatus.leftSteps, hcon, hall,
      ite_self]
  | some status =>
    cases status with
    | left prev =>
      by_cases hcon : prev.contains st = true
      · left
        simp [h, LocationUpdateStatus.leftSteps, hcon]
      · right
        refine ⟨by simp [statusRight, h], prev.toggle st, ?_⟩
        by_cases hall : (prev.toggle st).isAll = true
        · right
          simp [h, LocationUpdateStatus.leftSteps, hcon, hall, ite_self]
        · left
          simp [h, LocationUpdateStatus.leftSteps, hcon, hall, ite_self]
    | right c =>
      left
      simp [h, LocationUpdateStatus.leftSteps]

theorem handleLocationFailure_cases (s : ActiveLocationsUpdate) (z : LocationZoneCode) :
    handleLocationFailure s z = [] ∨
    (statusRight s.location_statuses z = false ∧
      (handleLocationFailure s z = [.locationUpdated z (.right .failed)] ∨
       handleLocationFailure s z = [.locationUpdated z (.right .failed), .failed])) := by
  unfold handleLocationFailure
  cases h : lookupStatus s.location_statuses z with
  | none =>
    right
    refine ⟨by simp [statusRight, h], ?_⟩
    have hoa : isOnlyActiveZone s z = false := by simp [isOnlyActiveZone, h]
    simp [h, DEFAULT_LOCATION_UPDATE_STATUS, hoa]
  | some status =>
    cases status with
    | left prev =>
      right
      refine ⟨by simp [statusRight, h], ?_⟩
      by_cases hoa : isOnlyActiveZone s z = true
      · right; simp [h, hoa]
      · left; simp [h, hoa]
    | right c =>
      left
      simp [h]

/-- Run invariant: counts of terminal events and per-zone `Right(_)` updates,
tied to the state variant. -/
def SagaInv : UpdateLocationsState → List UpdateLocationsEvent → Prop
  | .quiescent, events => terminalCount events = 0 ∧ ∀ z, rightCount z events = 0
  | .active s, events =>
    terminalCount events = 0 ∧
      ∀ z, rightCount z events ≤ 1 ∧
        (statusRight s.location_statuses z = false → rightCount z events = 0)
  | .finished, events => terminalCount events ≤ 1 ∧ ∀ z, rightCount z events ≤ 1

theorem sagaInv_noteUpdate (s : ActiveLocationsUpdate) (evts : List UpdateLocationsEvent)
    (z : LocationZoneCode) (st : LocationUpdatedStep)
    (h : SagaInv (.active s) evts) :
    SagaInv ((handleLocationUpdate s z st).foldl sagaApply (.active s))
      (evts ++ handleLocationUpdate s z st) := by
  obtain ⟨ht, hr⟩ := h
  rcases handleLocationUpdate_cases s z st with hcase | ⟨hsr, ns, hcase | hcase⟩
  · simpa [hcase, SagaInv] using ⟨ht, hr⟩
  · rw [hcase]
    simp only [List.foldl, sagaApply, sagaApplyStep, activeSagaApply, Option.getD_some]
    refine ⟨?_, ?_⟩
    · simp [terminalCount_append, terminalCount_leftUpdate, ht]
    · intro z'
      have hcnt : rightCount z' (evts ++ [.locationUpdated z (.left ns)]) = rightCount z' evts := by
        simp [rightCount_append, rightCount_leftUpdate]
      refine ⟨by rw [hcnt]; exact (hr z').1, ?_⟩
      intro hstat
      rw [hcnt]
      by_cases hz : z' = z
      · subst hz
        exact (hr z').2 hsr
      · rw [statusRight_insert_ne _ _ _ _ hz] at hstat
        exact (hr z').2 hstat
  · rw [hcase]
    simp only [List.foldl, sagaApply, sagaApplyStep, activeSagaApply, Option.getD_some]
    refine ⟨?_, ?_⟩
    · simp [terminalCount_append, terminalCount_update_completed, ht]
    · intro z'
      have hcnt : rightCount z' (evts ++ [.locationUpdated z (.left ns), .completed]) =
          rightCount z' evts := by
        simp [rightCount_append, rightCount_leftUpdate_completed]
      rw [hcnt]
      exact (hr z').1

theorem sagaInv_noteFailure (s : ActiveLocationsUpdate) (evts : List UpdateLocationsEvent)
    (z : LocationZoneCode) (h : SagaInv (.active s) evts) :
    SagaInv ((handleLocationFailure s z).foldl sagaApply (.active s))
      (evts ++ handleLocationFailure s z) := by
  obtain ⟨ht, hr⟩ := h
  have hzero : ∀ z', rightCount z' (evts ++ [UpdateLocationsEvent.locationUpdated z
      (.right .failed)]) = rightCount z' evts + (if z' = z then 1 else 0) := by
    intro z'
    by_cases hz : z' = z
    · subst hz; simp [rightCount_append, rightCount_rightUpdate_self]
    · simp [rightCount_append,
        rightCount_rightUpdate_ne z' z UpdateCompletionStatus.failed (Ne.symm hz), hz]
  rcases handleLocationFailure_cases s z with hcase | ⟨hsr, hcase | hcase⟩
  · simpa [hcase, SagaInv] using ⟨ht, hr⟩
  · rw [hcase]
    simp only [List.foldl, sagaApply, sagaApplyStep, activeSagaApply, Option.getD_some]
    refine ⟨?_, ?_⟩
    · simp [terminalCount_append, terminalCount_leftUpdate, ht]
    · intro z'
      rw [hzero z']
      by_cases hz : z' = z
      · subst hz
        have h0 : rightCount z' evts = 0 := (hr z').2 hsr
        refine ⟨by simp [h0], ?_⟩
        intro hstat
        simp [statusRight_insert_right] at hstat
      · refine ⟨by simpa [hz] using (hr z').1, ?_⟩
        intro hstat
        rw [statusRight_insert_ne _ _ _ _ hz] at hstat
        simpa [hz] using (hr z').2 hstat
  · rw [hcase]
    simp only [List.foldl, sagaApply, sagaApplyStep, activeSagaApply, Option.getD_some]
    refine ⟨?_, ?_⟩
    · simp [terminalCount_append, terminalCount_update_failed, ht]
    · intro z'
      by_cases hz : z' = z
      · subst hz
        have h0 : rightCount z' evts = 0 := (hr z').2 hsr
        simp [rightCount_append, rightCount_rightUpdate_failed_self, h0]
      · simp [rightCount_append, rightCount_rightUpdate_failed_ne z' z (Ne.symm hz)]
        exact (hr z').1

theorem sagaInv_execute (s : UpdateLocationsState) (evts : List UpdateLocationsEvent)
    (c : UpdateLocationsCommand) (h : SagaInv s evts) :
    SagaInv (sagaExecute s c).1 (evts ++ (sagaExecute s c).2) := by
  cases s with
  | quiescent =>
    obtain ⟨ht, hr⟩ := h
    cases c with
    | updateLocations id zones =>
      by_cases hz : zones.isEmpty
      · simpa [sagaExecute, sagaHandle, quiescentSagaHandle, hz, SagaInv] using ⟨ht, hr⟩
      · simp only [sagaExecute, sagaHandle, quiescentSagaHandle, hz, Bool.false_eq_true,
          if_false, List.foldl, sagaApply, sagaApplyStep, quiescentSagaApply, Option.getD_some]
        refine ⟨?_, ?_⟩
        · simp [terminalCount_append, terminalCount_started, ht]
        · intro z'
          have hcnt : rightCount z' (evts ++ [.started id zones]) = 0 := by
            simp [rightCount_append, rightCount_started, hr z']
          exact ⟨by simp [hcnt], fun _ => hcnt⟩
    | noteLocationObservationUpdated z =>
      simpa [sagaExecute, sagaHandle, quiescentSagaHandle, SagaInv] using ⟨ht, hr⟩
    | noteLocationForecastUpdated z =>
      simpa [sagaExecute, sagaHandle, quiescentSagaHandle, SagaInv] using ⟨ht, hr⟩
    | noteLocationAlertStatusUpdated z =>
      simpa [sagaExecute, sagaHandle, quiescentSagaHandle, SagaInv] using ⟨ht, hr⟩
    | noteLocationUpdateFailure z =>
      simpa [sagaExecute, sagaHandle, quiescentSagaHandle, SagaInv] using ⟨ht, hr⟩
  | active st =>
    cases c with
    | updateLocations id zones =>
      simpa [sagaExecute, sagaHandle, activeSagaHandle, SagaInv] using h
    | noteLocationObservationUpdated z =>
      simpa [sagaExecute, sagaHandle, activeSagaHandle] using
        sagaInv_noteUpdate st evts z .observation h
    | noteLocationForecastUpdated z =>
      simpa [sagaExecute, sagaHandle, activeSagaHandle] using
        sagaInv_noteUpdate st evts z .forecast h
    | noteLocationAlertStatusUpdated z =>
      simpa [sagaExecute, sagaHandle, activeSagaHandle] using
        sagaInv_noteUpdate st evts z .alert h
    | noteLocationUpdateFailure z =>
      simpa [sagaExecute, sagaHandle, activeSagaHandle] using
        sagaInv_noteFailure st evts z h
  | finished =>
    cases c <;> simpa [sagaExecute, sagaHandle, finishedSagaHandle, SagaInv] using h

theorem sagaInv_run (s : UpdateLocationsState) (evts : List UpdateLocationsEvent)
    (cmds : List UpdateLocationsCommand) (h : SagaInv s evts) :
    SagaInv (sagaRun s cmds).1 (evts ++ (sagaRun s cmds).2) := by
  induction cmds generalizing s evts with
  | nil => simpa [sagaRun] using h
  | cons c cs ih =>
    simp only [sagaRun]
    have h2 := ih (sagaExecute s c).1 (evts ++ (sagaExecute s c).2) (sagaInv_execute s evts c h)
    simpa [List.append_assoc] using h2

/-- The saga note command corresponding to an update step, as produced by the
three `NoteLocation*Updated` arms of `ActiveLocationsUpdate::handle`. -/
def noteStepCommand : LocationUpdatedStep → LocationZoneCode → UpdateLocationsCommand
  | .observation, z => .noteLocationObservationUpdated z
  | .forecast, z => .noteLocationForecastUpdated z
  | .alert, z => .noteLocationAlertStatusUpdated z

theorem activeSagaHandle_noteStep (s : ActiveLocationsUpdate) (st : LocationUpdatedStep)
    (z : LocationZoneCode) :
    activeSagaHandle s (noteStepCommand st z) = .ok (handleLocationUpdate s z st) := by
  cases st <;> rfl

theorem registrarFold_codes (events : List RegistrarEvent) (s : Registrar) :
    (events.foldl registrarApply s).location_codes =
      events.foldl specReferenceStep s.location_codes := by
  induction events generalizing s with
  | nil => rfl
  | cons e es ih =>
    cases e <;> simp [List.foldl, registrarApply, specReferenceStep, ih]

/-- C4: over any saga run from the initial Quiescent state - commands
processed in order, each accepted command's events applied in order - every
single zone receives exactly 0 or 1 `LocationUpdated(z, Right(_))` events,
and at most one terminal event (`Completed` or `Failed`, hence never both)
is emitted. -/
theorem saga_run_right_and_terminal_counts (cmds : List UpdateLocationsCommand)
    (z : LocationZoneCode) :
    (rightCount z (sagaRun .quiescent cmds).2 = 0 ∨
     rightCount z (sagaRun .quiescent cmds).2 = 1) ∧
    terminalCount (sagaRun .quiescent cmds).2 ≤ 1 := by
  have h0 : SagaInv .quiescent [] := ⟨rfl, fun _ => rfl⟩
  have h := sagaInv_run .quiescent [] cmds h0
  rw [List.nil_append] at h
  have hbound : rightCount z (sagaRun .quiescent cmds).2 ≤ 1 ∧
      terminalCount (sagaRun .quiescent cmds).2 ≤ 1 := by
    cases hs : (sagaRun UpdateLocationsState.quiescent cmds).1 with
    | quiescent => rw [hs] at h; exact ⟨by simp [h.2 z], by simp [h.1]⟩
    | active st => rw [hs] at h; exact ⟨(h.2 z).1, by simp [h.1]⟩
    | finished => rw [hs] at h; exact ⟨h.2 z, h.1⟩
  exact ⟨by omega, hbound.2⟩

/-- C5: replaying any registrar event sequence on the initial empty aggregate
yields `location_codes` equal to the spec's reference fold evaluated in event
order (insert on added, erase on forgotten, reset to empty on clear). -/
theorem registrar_replay_eq_spec_reference (events : List RegistrarEvent) :
    (registrarReplay events).location_codes = specReferenceLocationCodes events := by
  simpa [registrarReplay, specReferenceLocationCodes] using
    registrarFold_codes events { location_codes := ∅ }

/-- C1 counterexample: with zone `"A"` at `Left({Observation, Forecast})` and
zone `"B"` still `Left(empty)` (hence another zone still active), handling
`NoteLocationAlertStatusUpdated("A")` emits `Completed` right after the
`LocationUpdated` event, contradicting the claim that `Completed` is withheld
while another zone is still `Left(_)`. -/
theorem completed_emitted_with_other_active_zone :
    activeSagaHandle
      { aggregate_id := "saga-1"
        location_statuses :=
          [("A", .left ⟨true, true, false⟩), ("B", .left ⟨false, false, false⟩)] }
      (.noteLocationAlertStatusUpdated "A") =
      .ok [.locationUpdated "A" (.left ⟨true, true, true⟩), .completed] ∧
    lookupStatus [("A", .left ⟨true, true, false⟩), ("B", .left ⟨false, false, false⟩)] "B" =
      some (.left ⟨false, false, false⟩) ∧
    (LocationUpdateStatus.left ⟨false, false, false⟩).is_active = true := by
  refine ⟨rfl, by decide, rfl⟩

/-- C1 (amended): when the Active saga handles a `NoteLocation*Updated(zone)`
command whose step completes the zone's bitmask (the step bit was unset and
the new bitmask is all-steps-set), `handle` emits
`LocationUpdated(zone, Left(all))` followed by `Completed`, regardless of
whether other zones are still `Left(_)` - the source's `is_only_active_zone`
branch and the general branch emit identical events. -/
theorem note_step_all_steps_emits_completed (s : ActiveLocationsUpdate)
    (z : LocationZoneCode) (st : LocationUpdatedStep) (prev : LocationUpdatedSteps)
    (h1 : lookupStatus s.location_statuses z = some (.left prev))
    (h2 : prev.contains st = false)
    (h3 : (prev.toggle st).isAll = true) :
    activeSagaHandle s (noteStepCommand st z) =
      .ok [.locationUpdated z (.left (prev.toggle st)), .completed] := by
  rw [activeSagaHandle_noteStep]
  unfold handleLocationUpdate
  simp [h1, LocationUpdateStatus.leftSteps, h2, h3, ite_self]

/-- Witness for the amended C1 at a concrete two-zone state. -/
theorem note_step_all_steps_emits_completed_witness :
    (lookupStatus
        [("A", (.left ⟨true, true, false⟩ : LocationUpdateStatus)),
          ("B", .left ⟨false, false, false⟩)] "A" = some (.left ⟨true, true, false⟩)) ∧
    ((⟨true, true, false⟩ : LocationUpdatedSteps).contains .alert = false) ∧
    (((⟨true, true, false⟩ : LocationUpdatedSteps).toggle .alert).isAll = true) ∧
    activeSagaHandle
      { aggregate_id := "saga-1"
        location_statuses :=
          [("A", .left ⟨true, true, false⟩), ("B", .left ⟨false, false, false⟩)] }
      (noteStepCommand .alert "A") =
      .ok [.locationUpdated "A"
        (.left ((⟨true, true, false⟩ : LocationUpdatedSteps).toggle .alert)), .completed] :=
  ⟨by decide, by decide, by decide,
    note_step_all_steps_emits_completed _ "A" .alert ⟨true, true, false⟩
      (by decide) (by decide) (by decide)⟩

/-- C9: a `NoteLocation*Updated(zone)` or `NoteLocationUpdateFailure(zone)`
command for a zone absent from `location_statuses` is not rejected: the zone
falls back to the default empty bitmask, so the note emits
`LocationUpdated(zone, Left({step}))` (never `Completed`, since one bit is not
all three), the failure emits `LocationUpdated(zone, Right(Failed))` without
`Failed` (an absent zone is never the only active zone), and applying the
emitted event adds the zone to the run's accounting. -/
theorem unknown_zone_commands_accepted (s : ActiveLocationsUpdate)
    (z : LocationZoneCode) (h : lookupStatus s.location_statuses z = none) :
    (∀ st, activeSagaHandle s (noteStepCommand st z) =
      .ok [.locationUpdated z (.left (LocationUpdatedSteps.empty.toggle st))]) ∧
    activeSagaHandle s (.noteLocationUpdateFailure z) =
      .ok [.locationUpdated z (.right .failed)] ∧
    (∀ status, lookupStatus (insertStatus s.location_statuses z status) z = some status) := by
  refine ⟨?_, ?_, fun status => lookupStatus_insert_self _ _ _⟩
  · intro st
    rw [activeSagaHandle_noteStep]
    unfold handleLocationUpdate
    have hcon : LocationUpdatedSteps.empty.contains st = false := by cases st <;> rfl
    have hall : (LocationUpdatedSteps.empty.toggle st).isAll = false := by cases st <;> rfl
    simp [h, DEFAULT_LOCATION_UPDATE_STATUS, LocationUpdateStatus.leftSteps, hcon, hall,
      ite_self]
  · have hoa : isOnlyActiveZone s z = false := by simp [isOnlyActiveZone, h]
    show Except.ok (handleLocationFailure s z) = _
    unfold handleLocationFailure
    simp [h, DEFAULT_LOCATION_UPDATE_STATUS, hoa]

/-- Witness for C9 at a concrete one-zone state and the unknown zone `"A"`. -/
theorem unknown_zone_commands_accepted_witness :
    (lookupStatus [("B", (.left LocationUpdatedSteps.empty : LocationUpdateStatus))] "A" =
      none) ∧
    activeSagaHandle
      { aggregate_id := "saga-1"
        location_statuses := [("B", .left LocationUpdatedSteps.empty)] }
      (noteStepCommand .observation "A") =
      .ok [.locationUpdated "A" (.left (LocationUpdatedSteps.empty.toggle .observation))] :=
  ⟨by decide,
    (unknown_zone_commands_accepted
      { aggregate_id := "saga-1"
        location_statuses := [("B", .left LocationUpdatedSteps.empty)] }
      "A" (by decide)).1 .observation⟩

/-- C6: on an Active `LocationZone`, `NoteAlert` is idempotent in its emitted
events: `NoteAlert(Some a)` emits exactly `[AlertActivated(a)]` when
`active_alert` is false and nothing when it is true (so a second consecutive
`NoteAlert(Some a')` emits nothing); `NoteAlert(None)` emits exactly
`[AlertDeactivated]` when `active_alert` is true and nothing when it is false
(so a second consecutive `NoteAlert(None)` emits nothing). -/
theorem note_alert_idempotent_events (s : ActiveLocationZone) (svc : LocationServices)
    (a a' : WeatherAlert) :
    activeZoneHandle s (.noteAlert (some a)) svc =
      .ok (if s.active_alert then [] else [.alertActivated a]) ∧
    activeZoneHandle s (.noteAlert none) svc =
      .ok (if s.active_alert then [.alertDeactivated] else []) ∧
    zoneHandle ((if s.active_alert then ([] : List LocationZoneEvent)
        else [.alertActivated a]).foldl zoneApply (.active s))
      (.noteAlert (some a')) svc = .ok [] ∧
    zoneHandle ((if s.active_alert then [LocationZoneEvent.alertDeactivated]
        else []).foldl zoneApply (.active s))
      (.noteAlert none) svc = .ok [] := by
  cases h : s.active_alert <;>
    simp [activeZoneHandle, zoneHandle, zoneApply, zoneApplyStep, activeZoneApply, h,
      Option.toList]

/-- C7: the registrar rejects `MonitorForecastZone(zone)` when the zone is
already monitored - no events, state unchanged - and, when the zone is absent
and the zone-initialization service succeeds, emits exactly
`[ForecastZoneAdded(zone)]`. -/
theorem monitor_forecast_zone_duplicate_rejected (s : Registrar)
    (svc : RegistrarServices) (z : LocationZoneCode) :
    (z ∈ s.location_codes →
      registrarExecute s (.monitorForecastZone z) svc =
        (s, .error (.rejectedCommand ("already monitoring location zone code: " ++ z)))) ∧
    (z ∉ s.location_codes → svc.initialize_forecast_zone z = .ok () →
      registrarHandle s (.monitorForecastZone z) svc = .ok [.forecastZoneAdded z]) := by
  constructor
  · intro hin
    have hcond : ¬(z ∉ s.location_codes) := fun hc => hc hin
    simp [registrarExecute, registrarHandle, hcond]
  · intro hout hsvc
    simp [registrarHandle, hout, hsvc, Except.map]

/-- Witness for C7: duplicate rejected at a monitored code, accepted at an
absent one, against the happy-path services. -/
theorem monitor_forecast_zone_duplicate_rejected_witness :
    ("WAZ558" ∈ (Registrar.mk {"WAZ558"}).location_codes) ∧
    registrarExecute (Registrar.mk {"WAZ558"}) (.monitorForecastZone "WAZ558")
        HappyPathServices =
      (Registrar.mk {"WAZ558"},
        .error (.rejectedCommand "already monitoring location zone code: WAZ558")) ∧
    ("MDC031" ∉ (Registrar.mk {"WAZ558"}).location_codes) ∧
    registrarHandle (Registrar.mk {"WAZ558"}) (.monitorForecastZone "MDC031")
        HappyPathServices = .ok [.forecastZoneAdded "MDC031"] :=
  ⟨by decide,
    (monitor_forecast_zone_duplicate_rejected (Registrar.mk {"WAZ558"})
      HappyPathServices "WAZ558").1 (by decide),
    by decide,
    (monitor_forecast_zone_duplicate_rejected (Registrar.mk {"WAZ558"})
      HappyPathServices "MDC031").2 (by decide) rfl⟩

/-- C8: on an Active `LocationZone`, `ObservationAdded` replaces only
`weather`, `ForecastUpdated` replaces only `forecast`, and the alert events
flip only `active_alert`; the record updates keep every other field of the
state identical. -/
theorem active_zone_apply_updates_single_field (s : ActiveLocationZone)
    (f : WeatherFrame) (fc : ZoneForecast) (a : WeatherAlert) :
    activeZoneApply s (.observationAdded f) = some (.active { s with weather := some f }) ∧
    activeZoneApply s (.forecastUpdated fc) = some (.active { s with forecast := some fc }) ∧
    activeZoneApply s (.alertActivated a) = some (.active { s with active_alert := true }) ∧
    activeZoneApply s .alertDeactivated = some (.active { s with active_alert := false }) :=
  ⟨rfl, rfl, rfl, rfl⟩

/-- C10: the aggregate-level `apply` functions are total Lean functions, and
an event not recognized by the current state variant leaves the state exactly
unchanged: non-`ZoneSet` events on a Quiescent zone, `ZoneSet` on an Active
zone, non-`Started` events on a Quiescent saga, `Started` on an Active saga,
and every event on a Finished saga. -/
theorem apply_ignores_unrecognized_events (s : ActiveLocationZone)
    (sa : ActiveLocationsUpdate) (f : WeatherFrame) (fc : ZoneForecast)
    (a : WeatherAlert) (t : LocationZoneType) (c : LocationZoneCode)
    (id : String) (zs : List LocationZoneCode) (st : LocationUpdateStatus)
    (e : UpdateLocationsEvent) :
    zoneApply .quiescent (.observationAdded f) = .quiescent ∧
    zoneApply .quiescent (.forecastUpdated fc) = .quiescent ∧
    zoneApply .quiescent (.alertActivated a) = .quiescent ∧
    zoneApply .quiescent .alertDeactivated = .quiescent ∧
    zoneApply (.active s) (.zoneSet t c) = .active s ∧
    sagaApply .quiescent (.locationUpdated c st) = .quiescent ∧
    sagaApply .quiescent .completed = .quiescent ∧
    sagaApply .quiescent .failed = .quiescent ∧
    sagaApply (.active sa) (.started id zs) = .active sa ∧
    sagaApply .finished e = .finished :=
  ⟨rfl, rfl, rfl, rfl, rfl, rfl, rfl, rfl, rfl, rfl⟩

/-- C2: evaluating the controller's `Started` fan-out for saga `"saga-1"`,
zones `["WAZ558"]`, and no active alerts.  The location relay receives only
the `Observe` and `Forecast` envelopes, and the saga relay receives no
envelope at all - in particular no
`NoteLocationAlertStatusUpdated("WAZ558")` for the alert-unaffected zone,
contradicting the claim. -/
theorem dispatch_emits_no_saga_command_for_unaffected_zone :
    dispatchStartedCommands "saga-1" ["WAZ558"] [] =
      ([{ target_id := "WAZ558", command := .observe,
          metadata := [("correlation", "saga-1")] },
        { target_id := "WAZ558", command := .forecast,
          metadata := [("correlation", "saga-1")] }], []) := by
  rfl

/-- C3: `add_detail` at a concrete failing input.  An accumulator at the
highest quality control `V` absorbing a detail at the lowest quality control
`X` is reset to the `X` detail, and an accumulator at `X` absorbing a `V`
detail ignores it - the exact opposite of the documented strategy (lesser
rhs ignored, higher rhs resets), because the `Ordering::Less` and
`Ordering::Greater` match arms are swapped relative to the comment. -/
theorem add_detail_prefers_lower_quality_control :
    (QuantitativeAggregation.new ⟨10, "wmoUnit:degC", .V⟩).add_detail
        ⟨3, "wmoUnit:degC", .X⟩ =
      { count := 1, value_sum := 3, max_value := 3, min_value := 3,
        unit_code := "wmoUnit:degC", quality_control := .X } ∧
    (QuantitativeAggregation.new ⟨3, "wmoUnit:degC", .X⟩).add_detail
        ⟨10, "wmoUnit:degC", .V⟩ =
      QuantitativeAggregation.new ⟨3, "wmoUnit:degC", .X⟩ := by
  constructor <;> rfl

/-- Sanity run: single-zone happy path.  The three note commands set the
three step bits; the last one also emits `Completed` and finishes the saga. -/
theorem sagaRun_single_zone_happy_path :
    sagaRun .quiescent
      [.updateLocations "sid" ["A"],
       .noteLocationObservationUpdated "A",
       .noteLocationForecastUpdated "A",
       .noteLocationAlertStatusUpdated "A"] =
      (.finished,
       [.started "sid" ["A"],
        .locationUpdated "A" (.left ⟨true, false, false⟩),
        .locationUpdated "A" (.left ⟨true, true, false⟩),
        .locationUpdated "A" (.left ⟨true, true, true⟩),
        .completed]) := by
  rfl

/-- Sanity run: two zones, both failing.  The first failure emits no terminal
event because the other zone is still active; the second failure does. -/
theorem sagaRun_two_zone_failures :
    sagaRun .quiescent
      [.updateLocations "sid" ["A", "B"],
       .noteLocationUpdateFailure "A",
       .noteLocationUpdateFailure "B"] =
      (.finished,
       [.started "sid" ["A", "B"],
        .locationUpdated "A" (.right .failed),
        .locationUpdated "B" (.right .failed),
        .failed]) := by
  rfl
